import Mathlib

/-!
Verification of `src/weather_server.py` (a small MCP weather server).

Shallow embedding conventions (each definition is translated from the named
Python function in the source):

* Python JSON values are modelled by the inductive `Json`.  JSON numbers are
  modelled as integers (every numeric field in the NWS payloads used by this
  program is integral).  Python dicts become association lists with
  first-match lookup (keys of a parsed JSON object are unique).
* A Python function that can raise an exception is modelled as returning
  `Option`: `none` means an uncaught exception, `some s` a normal return of
  the string `s`.
* The HTTP fetcher `make_nws_request` catches every exception and returns
  either a parsed body or `None`; it is modelled by a parameter
  `fetch : String → Option Json` (`none` = fetch failure signal).  Feeding the
  fetcher a non-string URL raises inside its `try` block and hence also
  yields `none`; `make_nws_request` lifts `fetch` accordingly.
* Python truthiness (`if not x:`) on JSON values is `Json.truthy`; on the
  optional fetch result it is `pyFalsy` (`None` is falsy).
* Python `str(x)` on a JSON value is `Json.pyStr` (with `repr` for
  containers, escaping subtleties of `repr` on strings ignored — no claim
  exercises them).
* A Python float argument is modelled by `Dec`, a decimal `mant / 10 ^ exp`,
  standing for the float whose shortest decimal representation it is;
  `Dec.pyStr` is Python `str()` of that float and `Dec.fmt4` is `f"{x:.4f}"`
  (rounding of the exact decimal, half to even, which agrees with the float
  formatting on all inputs whose shortest representation has few digits).
* `str.upper()` is modelled by `pyUpper` (ASCII uppercasing of every
  character; region codes are ASCII).
-/

set_option maxHeartbeats 1000000

namespace WeatherServer

/-- Python JSON values (numbers restricted to integers, see header). -/
inductive Json where
  | null : Json
  | bool : Bool → Json
  | num : Int → Json
  | str : String → Json
  | arr : List Json → Json
  | obj : List (String × Json) → Json

/-- Python truthiness of a JSON value. -/
def Json.truthy : Json → Bool
  | Json.null => false
  | Json.bool b => b
  | Json.num n => n != 0
  | Json.str s => !s.isEmpty
  | Json.arr xs => !xs.isEmpty
  | Json.obj kvs => !kvs.isEmpty

/-- Python truthiness of an `Optional[dict]` (`None` is falsy), as used in
`if not alerts_data:` etc. -/
def pyFalsy : Option Json → Bool
  | none => true
  | some j => !j.truthy

/-- Python `d.get(k, default)` on a dict modelled as an association list. -/
def lookupD (kvs : List (String × Json)) (k : String) (d : Json) : Json :=
  (List.lookup k kvs).getD d

mutual

/-- Python `repr()` of a JSON value (string escaping inside `repr` ignored). -/
def Json.pyRepr : Json → String
  | Json.null => "None"
  | Json.bool b => if b then "True" else "False"
  | Json.num n => toString n
  | Json.str s => "\x27" ++ s ++ "\x27"
  | Json.arr xs => "[" ++ pyJoin ", " (pyReprList xs) ++ "]"
  | Json.obj kvs => "\x7b" ++ pyJoin ", " (pyReprObj kvs) ++ "\x7d"

/-- `repr` mapped over a list of values. -/
def pyReprList : List Json → List String
  | [] => []
  | x :: xs => Json.pyRepr x :: pyReprList xs

/-- `repr` of the `key: value` entries of a dict. -/
def pyReprObj : List (String × Json) → List String
  | [] => []
  | (k, v) :: kvs => ("\x27" ++ k ++ "\x27: " ++ Json.pyRepr v) :: pyReprObj kvs

/-- Python `sep.join(parts)`. -/
def pyJoin (sep : String) : List String → String
  | [] => ""
  | [x] => x
  | x :: y :: xs => x ++ sep ++ pyJoin sep (y :: xs)

end

/-- Python `str()` of a JSON value, as used by f-string interpolation. -/
def Json.pyStr : Json → String
  | Json.str s => s
  | j => Json.pyRepr j

/-- A Python float argument, modelled as the exact decimal
`mant / 10 ^ exp` (the float's shortest decimal representation). -/
structure Dec where
  mant : Int
  exp : Nat

/-- `n` rendered in decimal, zero-padded on the left to `w` digits
(assumes `n < 10 ^ w`, which every call site guarantees via `% 10 ^ w`). -/
def natPad (n w : Nat) : String :=
  (toString (10 ^ w + n % 10 ^ w)).drop 1

/-- Python `str()` of the float: sign, integer part, point, fractional part
(`str` of a float always shows at least one fractional digit). -/
def Dec.pyStr (d : Dec) : String :=
  let sign := if d.mant < 0 then "-" else ""
  let a := d.mant.natAbs
  if d.exp = 0 then sign ++ toString a ++ ".0"
  else sign ++ toString (a / 10 ^ d.exp) ++ "." ++ natPad (a % 10 ^ d.exp) d.exp

/-- Round `n / d` (for `d > 0`) to the nearest integer, ties to even —
the rounding used by `f"{x:.4f}"`. -/
def roundHalfEven (n d : Int) : Int :=
  let q := n.ediv d
  let r := n.emod d
  if 2 * r < d then q
  else if 2 * r > d then q + 1
  else if q.emod 2 = 0 then q else q + 1

/-- The numerator of the decimal rescaled to 4 fractional digits,
rounding half to even when digits are dropped. -/
def Dec.scaled4 (d : Dec) : Int :=
  if d.exp ≤ 4 then d.mant * (10 : Int) ^ (4 - d.exp)
  else roundHalfEven d.mant ((10 : Int) ^ (d.exp - 4))

/-- Python `f"{x:.4f}"`: sign, integer part, point, exactly four fractional
digits. -/
def Dec.fmt4 (d : Dec) : String :=
  let a := d.scaled4.natAbs
  (if d.mant < 0 then "-" else "") ++ toString (a / 10000) ++ "." ++
    String.mk [Nat.digitChar (a / 1000 % 10), Nat.digitChar (a / 100 % 10),
      Nat.digitChar (a / 10 % 10), Nat.digitChar (a % 10)]

/-- Python `state.upper()` (ASCII uppercasing, applied characterwise). -/
def pyUpper (s : String) : String :=
  String.mk (s.data.map Char.toUpper)

/-- `NWS_API_BASE` constant of the source. -/
def NWS_API_BASE : String := "https://api.weather.gov"

/-- The alerts query URL built by `get_alerts`
(`f"{NWS_API_BASE}/alerts?area={state_code}"` after `state.upper()`). -/
def alertsUrl (state : String) : String :=
  NWS_API_BASE ++ "/alerts?area=" ++ pyUpper state

/-- The grid-point lookup URL built by `get_forecast`
(`f"{NWS_API_BASE}/points/{latitude:.4f},{longitude:.4f}"`). -/
def pointsUrl (latitude longitude : Dec) : String :=
  NWS_API_BASE ++ "/points/" ++ latitude.fmt4 ++ "," ++ longitude.fmt4

/-- The failure message of `get_forecast` when the grid-point fetch fails;
note it interpolates the raw floats (`str`), not the 4-decimal forms. -/
def gridFailMsg (latitude longitude : Dec) : String :=
  "Failed to retrieve grid point data for coordinates: " ++ latitude.pyStr ++
    ", " ++ longitude.pyStr ++
    ". This location may not be supported by the NWS API (only US locations are supported)."

/-- A Python list comprehension `[g(x) for x in xs]` whose body `g` may
raise (`none`): the first raise aborts the whole comprehension. -/
def pyMap (g : Json → Option String) : List Json → Option (List String)
  | [] => some []
  | x :: xs =>
    match g x, pyMap g xs with
    | some y, some ys => some (y :: ys)
    | _, _ => none

/-- `make_nws_request` applied to a (possibly non-string) URL value: a
non-string URL makes `client.get` raise inside the `try`, which is caught
and returns `None`. -/
def make_nws_request (fetch : String → Option Json) : Json → Option Json
  | Json.str u => fetch u
  | _ => none

/-- `format_alert` from the source: `none` models the `AttributeError`
raised when the feature (or its `properties` value) is not a dict. -/
def format_alert (feature : Json) : Option String :=
  match feature with
  | Json.obj kvs =>
    match lookupD kvs "properties" (Json.obj []) with
    | Json.obj props =>
      some (pyJoin "\n" [
        "Event: " ++ (lookupD props "event" (Json.str "Unknown")).pyStr,
        "Area: " ++ (lookupD props "areaDesc" (Json.str "Unknown")).pyStr,
        "Severity: " ++ (lookupD props "severity" (Json.str "Unknown")).pyStr,
        "Status: " ++ (lookupD props "status" (Json.str "Unknown")).pyStr,
        "Headline: " ++ (lookupD props "headline" (Json.str "No headline")).pyStr,
        "---"])
    | _ => none
  | _ => none

/-- `get_alerts` from the source (the fetcher is passed in as `fetch`). -/
def get_alerts (fetch : String → Option Json) (state : String) : Option String :=
  let state_code := pyUpper state
  let alerts_data := fetch (alertsUrl state)
  if pyFalsy alerts_data then some "Failed to retrieve alerts data"
  else match alerts_data with
  | some (Json.obj kvs) =>
    let features := lookupD kvs "features" (Json.arr [])
    if !features.truthy then some ("No active alerts for " ++ state_code)
    else match features with
      | Json.arr fs =>
        (pyMap format_alert fs).map (fun formatted_alerts =>
          "Active alerts for " ++ state_code ++ ":\n\n" ++ pyJoin "\n" formatted_alerts)
      | _ => none
  | _ => none

/-- The body of the per-period formatting loop of `get_forecast`
(`period_text = "\n".join([...])`). -/
def format_period (period : Json) : Option String :=
  match period with
  | Json.obj kvs =>
    some (pyJoin "\n" [
      (lookupD kvs "name" (Json.str "Unknown")).pyStr ++ ":",
      "Temperature: " ++ (lookupD kvs "temperature" (Json.str "Unknown")).pyStr ++
        "°" ++ (lookupD kvs "temperatureUnit" (Json.str "F")).pyStr,
      "Wind: " ++ (lookupD kvs "windSpeed" (Json.str "Unknown")).pyStr ++
        " " ++ (lookupD kvs "windDirection" (Json.str "")).pyStr,
      (lookupD kvs "shortForecast" (Json.str "No forecast available")).pyStr,
      "---"])
  | _ => none

/-- `get_forecast` from the source (the fetcher is passed in as `fetch`). -/
def get_forecast (fetch : String → Option Json) (latitude longitude : Dec) :
    Option String :=
  let points_data := fetch (pointsUrl latitude longitude)
  if pyFalsy points_data then some (gridFailMsg latitude longitude)
  else match points_data with
  | some (Json.obj kvs) =>
    match lookupD kvs "properties" (Json.obj []) with
    | Json.obj pkvs =>
      let forecast_url := lookupD pkvs "forecast" Json.null
      if !forecast_url.truthy then
        some "Failed to get forecast URL from grid point data"
      else
        let forecast_data := make_nws_request fetch forecast_url
        if pyFalsy forecast_data then some "Failed to retrieve forecast data"
        else match forecast_data with
        | some (Json.obj fkvs) =>
          match lookupD fkvs "properties" (Json.obj []) with
          | Json.obj fpkvs =>
            let periods := lookupD fpkvs "periods" (Json.arr [])
            if !periods.truthy then some "No forecast periods available"
            else match periods with
              | Json.arr ps =>
                (pyMap format_period ps).map (fun formatted_forecast =>
                  "Forecast for " ++ latitude.pyStr ++ ", " ++ longitude.pyStr ++
                    ":\n\n" ++ pyJoin "\n" formatted_forecast)
              | _ => none
          | _ => none
        | _ => none
    | _ => none
  | _ => none

/-- `alerts_resource` from the source: delegates to `get_alerts`. -/
def alerts_resource (fetch : String → Option Json) (state : String) :
    Option String :=
  get_alerts fetch state

/-- `forecast_resource` from the source: delegates to `get_forecast`. -/
def forecast_resource (fetch : String → Option Json) (latitude longitude : Dec) :
    Option String :=
  get_forecast fetch latitude longitude

/-- A feature record of the expected shape (a dict whose `properties`, if
present, is a dict): exactly the inputs on which Python's `format_alert`
returns normally. -/
def FeatureOk (f : Json) : Prop :=
  ∃ kvs pkvs, f = Json.obj kvs ∧
    lookupD kvs "properties" (Json.obj []) = Json.obj pkvs

/-- A forecast period record of the expected shape (a dict). -/
def PeriodOk (p : Json) : Prop :=
  ∃ kvs, p = Json.obj kvs

/-- A parsed payload whose expected sub-fields are each either absent or of
the expected shape, so that every dynamic access in the tools is safe no
matter which role the payload plays. -/
def Benign (j : Json) : Prop :=
  ∃ kvs pkvs fs ps,
    j = Json.obj kvs ∧
    lookupD kvs "features" (Json.arr []) = Json.arr fs ∧
    (∀ f ∈ fs, FeatureOk f) ∧
    lookupD kvs "properties" (Json.obj []) = Json.obj pkvs ∧
    lookupD pkvs "periods" (Json.arr []) = Json.arr ps ∧
    (∀ p ∈ ps, PeriodOk p)

theorem pyJoin_six (s a b c d e f : String) :
    pyJoin s [a, b, c, d, e, f] =
      a ++ s ++ b ++ s ++ c ++ s ++ d ++ s ++ e ++ s ++ f := by
  simp [pyJoin, String.append_assoc]

theorem pyJoin_five (s a b c d e : String) :
    pyJoin s [a, b, c, d, e] = a ++ s ++ b ++ s ++ c ++ s ++ d ++ s ++ e := by
  simp [pyJoin, String.append_assoc]

theorem format_alert_some (f : Json) (h : FeatureOk f) :
    ∃ s, format_alert f = some s := by
  obtain ⟨kvs, pkvs, rfl, hp⟩ := h
  simp only [format_alert, hp]
  exact ⟨_, rfl⟩

theorem format_period_some (p : Json) (h : PeriodOk p) :
    ∃ s, format_period p = some s := by
  obtain ⟨kvs, rfl⟩ := h
  exact ⟨_, rfl⟩

theorem mapM_format_alert (fs : List Json) (h : ∀ f ∈ fs, FeatureOk f) :
    ∃ blocks, pyMap format_alert fs = some blocks ∧
      blocks.length = fs.length := by
  induction fs with
  | nil => exact ⟨[], rfl, rfl⟩
  | cons f fs ih =>
    obtain ⟨s, hs⟩ := format_alert_some f (h f (by simp))
    obtain ⟨blocks, hb, hl⟩ := ih (fun g hg => h g (by simp [hg]))
    exact ⟨s :: blocks, by simp [pyMap, hs, hb], by simp [hl]⟩

theorem mapM_format_period (ps : List Json) (h : ∀ p ∈ ps, PeriodOk p) :
    ∃ blocks, pyMap format_period ps = some blocks ∧
      blocks.length = ps.length := by
  induction ps with
  | nil => exact ⟨[], rfl, rfl⟩
  | cons p ps ih =>
    obtain ⟨s, hs⟩ := format_period_some p (h p (by simp))
    obtain ⟨blocks, hb, hl⟩ := ih (fun q hq => h q (by simp [hq]))
    exact ⟨s :: blocks, by simp [pyMap, hs, hb], by simp [hl]⟩

/-- C1: for every region-code string and fetcher outcome, `get_alerts`
returns exactly one of three results: the fixed failure string when the
fetcher signals failure; exactly `"No active alerts for CODE"` (with the
uppercased code) when the fetch succeeds with zero alert features; and a
header naming the uppercased region followed by exactly one formatted block
per feature, joined by newlines in upstream order, when it succeeds with at
least one feature. -/
theorem get_alerts_trichotomy (fetch : String → Option Json) (state : String) :
    (fetch (alertsUrl state) = none →
      get_alerts fetch state = some "Failed to retrieve alerts data") ∧
    (∀ kvs, fetch (alertsUrl state) = some (Json.obj kvs) → kvs ≠ [] →
      lookupD kvs "features" (Json.arr []) = Json.arr [] →
      get_alerts fetch state =
        some ("No active alerts for " ++ pyUpper state)) ∧
    (∀ kvs fs, fetch (alertsUrl state) = some (Json.obj kvs) → kvs ≠ [] →
      lookupD kvs "features" (Json.arr []) = Json.arr fs → fs ≠ [] →
      (∀ f ∈ fs, FeatureOk f) →
      ∃ blocks, pyMap format_alert fs = some blocks ∧
        blocks.length = fs.length ∧
        get_alerts fetch state =
          some ("Active alerts for " ++ pyUpper state ++ ":\n\n" ++
            pyJoin "\n" blocks)) := by
  refine ⟨fun h => by simp [get_alerts, h, pyFalsy], ?_, ?_⟩
  · intro kvs h hne hf
    cases kvs with
    | nil => exact absurd rfl hne
    | cons kv kvs =>
      simp [get_alerts, h, pyFalsy, Json.truthy, hf]
  · intro kvs fs h hne hf hfs hok
    obtain ⟨blocks, hb, hl⟩ := mapM_format_alert fs hok
    refine ⟨blocks, hb, hl, ?_⟩
    cases kvs with
    | nil => exact absurd rfl hne
    | cons kv kvs =>
      cases fs with
      | nil => exact absurd rfl hfs
      | cons g gs =>
        simp [get_alerts, h, pyFalsy, Json.truthy, hf, hb]

/-- A fetcher that always signals failure. -/
def fetchFail : String → Option Json := fun _ => none

/-- A sample alert feature with only an `event` property. -/
def sampleFeature : Json :=
  Json.obj [("properties", Json.obj [("event", Json.str "Flood")])]

/-- A fetcher returning a body whose `features` list is empty. -/
def fetchNoAlerts : String → Option Json :=
  fun _ => some (Json.obj [("features", Json.arr [])])

/-- A fetcher returning a body with exactly one alert feature. -/
def fetchOneAlert : String → Option Json :=
  fun _ => some (Json.obj [("features", Json.arr [sampleFeature])])

/-- Witness for C1: the three arms at concrete fetchers and region `"ca"`. -/
theorem get_alerts_trichotomy_witness :
    get_alerts fetchFail "ca" = some "Failed to retrieve alerts data" ∧
    get_alerts fetchNoAlerts "ca" = some "No active alerts for CA" ∧
    get_alerts fetchOneAlert "ca" =
      some ("Active alerts for CA:\n\n" ++
        "Event: Flood\nArea: Unknown\nSeverity: Unknown\nStatus: Unknown\nHeadline: No headline\n---") := by
  refine ⟨(get_alerts_trichotomy fetchFail "ca").1 rfl, ?_, ?_⟩
  · have h := (get_alerts_trichotomy fetchNoAlerts "ca").2.1
      [("features", Json.arr [])] rfl (fun hc => List.noConfusion hc) rfl
    rw [h]
    rfl
  · obtain ⟨blocks, hb, hlen, hout⟩ := (get_alerts_trichotomy fetchOneAlert "ca").2.2
      [("features", Json.arr [sampleFeature])] [sampleFeature] rfl
      (fun hc => List.noConfusion hc) rfl (fun hc => List.noConfusion hc)
      (by
        intro f hf
        rw [List.mem_singleton] at hf
        subst hf
        exact ⟨[("properties", Json.obj [("event", Json.str "Flood")])],
          [("event", Json.str "Flood")], rfl, rfl⟩)
    have hev : pyMap format_alert [sampleFeature] =
        some ["Event: Flood\nArea: Unknown\nSeverity: Unknown\nStatus: Unknown\nHeadline: No headline\n---"] := rfl
    rw [hev] at hb
    cases hb
    rw [hout]
    rfl

/-- C4: `get_alerts` normalizes the region code to uppercase in the query
URL it builds and echoes only the uppercased code in its outputs, so two
inputs with the same uppercasing produce the identical request URL and
identical output. -/
theorem get_alerts_uppercase (fetch : String → Option Json) (s t : String)
    (h : pyUpper s = pyUpper t) :
    alertsUrl s = NWS_API_BASE ++ "/alerts?area=" ++ pyUpper s ∧
    alertsUrl s = alertsUrl t ∧
    get_alerts fetch s = get_alerts fetch t ∧
    (∀ kvs, fetch (alertsUrl s) = some (Json.obj kvs) → kvs ≠ [] →
      lookupD kvs "features" (Json.arr []) = Json.arr [] →
      get_alerts fetch s = some ("No active alerts for " ++ pyUpper s)) ∧
    (∀ kvs fs blocks, fetch (alertsUrl s) = some (Json.obj kvs) → kvs ≠ [] →
      lookupD kvs "features" (Json.arr []) = Json.arr fs → fs ≠ [] →
      pyMap format_alert fs = some blocks →
      get_alerts fetch s =
        some ("Active alerts for " ++ pyUpper s ++ ":\n\n" ++ pyJoin "\n" blocks)) := by
  refine ⟨rfl, by simp [alertsUrl, h], by simp [get_alerts, alertsUrl, h], ?_, ?_⟩
  · intro kvs hfe hne hf
    cases kvs with
    | nil => exact absurd rfl hne
    | cons kv kvs => simp [get_alerts, hfe, pyFalsy, Json.truthy, hf]
  · intro kvs fs blocks hfe hne hf hfs hpm
    cases kvs with
    | nil => exact absurd rfl hne
    | cons kv kvs =>
      cases fs with
      | nil => exact absurd rfl hfs
      | cons g gs => simp [get_alerts, hfe, pyFalsy, Json.truthy, hf, hpm]

/-- Witness for C4: inputs `"ca"` and `"Ca"` yield the same URL and output. -/
theorem get_alerts_uppercase_witness :
    alertsUrl "ca" = NWS_API_BASE ++ "/alerts?area=" ++ pyUpper "ca" ∧
    alertsUrl "ca" = alertsUrl "Ca" ∧
    get_alerts fetchNoAlerts "ca" = get_alerts fetchNoAlerts "Ca" := by
  have h := get_alerts_uppercase fetchNoAlerts "ca" "Ca" (by decide)
  exact ⟨h.1, h.2.1, h.2.2.1⟩

/-- C5: `format_alert` on any alert record (a dict whose `properties`, when
present, is a dict) returns normally with a five-line block labelled
`Event:`, `Area:`, `Severity:`, `Status:`, `Headline:` followed by a `---`
separator line, substituting `"Unknown"` for the first four fields when
absent and `"No headline"` for a missing headline. -/
theorem format_alert_block (kvs pkvs : List (String × Json))
    (h : lookupD kvs "properties" (Json.obj []) = Json.obj pkvs) :
    ∃ e a sv st hl,
      format_alert (Json.obj kvs) =
        some ("Event: " ++ e ++ "\n" ++ "Area: " ++ a ++ "\n" ++
          "Severity: " ++ sv ++ "\n" ++ "Status: " ++ st ++ "\n" ++
          "Headline: " ++ hl ++ "\n" ++ "---") ∧
      (List.lookup "event" pkvs = none → e = "Unknown") ∧
      (List.lookup "areaDesc" pkvs = none → a = "Unknown") ∧
      (List.lookup "severity" pkvs = none → sv = "Unknown") ∧
      (List.lookup "status" pkvs = none → st = "Unknown") ∧
      (List.lookup "headline" pkvs = none → hl = "No headline") := by
  refine ⟨(lookupD pkvs "event" (Json.str "Unknown")).pyStr,
    (lookupD pkvs "areaDesc" (Json.str "Unknown")).pyStr,
    (lookupD pkvs "severity" (Json.str "Unknown")).pyStr,
    (lookupD pkvs "status" (Json.str "Unknown")).pyStr,
    (lookupD pkvs "headline" (Json.str "No headline")).pyStr,
    ?_, ?_, ?_, ?_, ?_, ?_⟩
  · simp only [format_alert, h]
    rw [pyJoin_six]
    simp only [String.append_assoc]
  all_goals intro hl
  all_goals simp [lookupD, hl, Json.pyStr]

/-- Witness for C5: the all-fields-absent record gets every placeholder. -/
theorem format_alert_block_witness :
    format_alert (Json.obj []) =
      some ("Event: Unknown" ++ "\n" ++ "Area: Unknown" ++ "\n" ++
        "Severity: Unknown" ++ "\n" ++ "Status: Unknown" ++ "\n" ++
        "Headline: No headline" ++ "\n" ++ "---") := by
  obtain ⟨e, a, sv, st, hl, hout, he, ha, hsv, hst, hhl⟩ :=
    format_alert_block [] [] rfl
  rw [hout, he rfl, ha rfl, hsv rfl, hst rfl, hhl rfl]
  rfl

/-- C6: `get_forecast` embeds both coordinates in the grid-point lookup URL
formatted to exactly 4 decimal places: each formatted coordinate has
exactly four digits after its decimal point, and input `12.3` appears as
`12.3000`. -/
theorem pointsUrl_four_decimals (lat lon : Dec) :
    ∃ a b c d,
      Dec.fmt4 lat = a ++ "." ++ b ∧ b.length = 4 ∧
      Dec.fmt4 lon = c ++ "." ++ d ∧ d.length = 4 ∧
      pointsUrl lat lon =
        NWS_API_BASE ++ "/points/" ++ (a ++ "." ++ b) ++ "," ++ (c ++ "." ++ d) ∧
      Dec.fmt4 ⟨123, 1⟩ = "12.3000" := by
  refine ⟨(if lat.mant < 0 then "-" else "") ++ toString (lat.scaled4.natAbs / 10000),
    String.mk [Nat.digitChar (lat.scaled4.natAbs / 1000 % 10),
      Nat.digitChar (lat.scaled4.natAbs / 100 % 10),
      Nat.digitChar (lat.scaled4.natAbs / 10 % 10),
      Nat.digitChar (lat.scaled4.natAbs % 10)],
    (if lon.mant < 0 then "-" else "") ++ toString (lon.scaled4.natAbs / 10000),
    String.mk [Nat.digitChar (lon.scaled4.natAbs / 1000 % 10),
      Nat.digitChar (lon.scaled4.natAbs / 100 % 10),
      Nat.digitChar (lon.scaled4.natAbs / 10 % 10),
      Nat.digitChar (lon.scaled4.natAbs % 10)],
    rfl, rfl, rfl, rfl, rfl, by decide⟩

/-- C7: each resource adapter returns exactly what the corresponding tool
returns on the same input. -/
theorem resources_delegate (fetch : String → Option Json) (state : String)
    (lat lon : Dec) :
    alerts_resource fetch state = get_alerts fetch state ∧
    forecast_resource fetch lat lon = get_forecast fetch lat lon :=
  ⟨rfl, rfl⟩

theorem isEmpty_false_of_ne (u : String) (hu : u ≠ "") : u.isEmpty = false := by
  rw [Bool.eq_false_iff]
  intro hc
  exact hu ((String.isEmpty_iff u).mp hc)

/-- C2: `get_forecast` checks its steps in order and returns the fixed
message of the first failing step: a grid-fetch failure yields a message
interpolating the raw (`str`) coordinates, not the 4-decimal forms; a
missing `properties.forecast` yields exactly
`"Failed to get forecast URL from grid point data"`; a failing second fetch
yields exactly `"Failed to retrieve forecast data"`; an empty periods list
yields exactly `"No forecast periods available"`. -/
theorem get_forecast_error_paths (fetch : String → Option Json)
    (lat lon : Dec) :
    (fetch (pointsUrl lat lon) = none →
      get_forecast fetch lat lon =
        some ("Failed to retrieve grid point data for coordinates: " ++
          lat.pyStr ++ ", " ++ lon.pyStr ++
          ". This location may not be supported by the NWS API (only US locations are supported).")) ∧
    (∀ kvs pkvs, fetch (pointsUrl lat lon) = some (Json.obj kvs) → kvs ≠ [] →
      lookupD kvs "properties" (Json.obj []) = Json.obj pkvs →
      List.lookup "forecast" pkvs = none →
      get_forecast fetch lat lon =
        some "Failed to get forecast URL from grid point data") ∧
    (∀ kvs pkvs u, fetch (pointsUrl lat lon) = some (Json.obj kvs) →
      kvs ≠ [] →
      lookupD kvs "properties" (Json.obj []) = Json.obj pkvs →
      List.lookup "forecast" pkvs = some (Json.str u) → u ≠ "" →
      fetch u = none →
      get_forecast fetch lat lon = some "Failed to retrieve forecast data") ∧
    (∀ kvs pkvs u fkvs fpkvs, fetch (pointsUrl lat lon) = some (Json.obj kvs) →
      kvs ≠ [] →
      lookupD kvs "properties" (Json.obj []) = Json.obj pkvs →
      List.lookup "forecast" pkvs = some (Json.str u) → u ≠ "" →
      fetch u = some (Json.obj fkvs) → fkvs ≠ [] →
      lookupD fkvs "properties" (Json.obj []) = Json.obj fpkvs →
      lookupD fpkvs "periods" (Json.arr []) = Json.arr [] →
      get_forecast fetch lat lon = some "No forecast periods available") := by
  refine ⟨fun h => by simp [get_forecast, h, pyFalsy, gridFailMsg], ?_, ?_, ?_⟩
  · intro kvs pkvs h hne hp hf
    have hfD : lookupD pkvs "forecast" Json.null = Json.null := by
      simp [lookupD, hf]
    cases kvs with
    | nil => exact absurd rfl hne
    | cons kv kvs =>
      simp [get_forecast, h, pyFalsy, Json.truthy, hp, hfD]
  · intro kvs pkvs u h hne hp hf hu hfu
    have hfD : lookupD pkvs "forecast" Json.null = Json.str u := by
      simp [lookupD, hf]
    have huE := isEmpty_false_of_ne u hu
    cases kvs with
    | nil => exact absurd rfl hne
    | cons kv kvs =>
      simp [get_forecast, h, pyFalsy, Json.truthy, hp, hfD, huE,
        make_nws_request, hfu]
  · intro kvs pkvs u fkvs fpkvs h hne hp hf hu hfu hfne hfp hper
    have hfD : lookupD pkvs "forecast" Json.null = Json.str u := by
      simp [lookupD, hf]
    have huE := isEmpty_false_of_ne u hu
    cases kvs with
    | nil => exact absurd rfl hne
    | cons kv kvs =>
      cases fkvs with
      | nil => exact absurd rfl hfne
      | cons fkv fkvs =>
        simp [get_forecast, h, pyFalsy, Json.truthy, hp, hfD, huE,
          make_nws_request, hfu, hfp, hper]

/-- A grid-point response whose `properties` has no `forecast` URL. -/
def fetchNoUrl : String → Option Json :=
  fun _ => some (Json.obj [("properties", Json.obj [("gridId", Json.str "MTR")])])

/-- The forecast URL used by the sample grid-point documents. -/
def sampleUrl : String := "https://api.weather.gov/gridpoints/MTR/85,105/forecast"

/-- A grid-point response carrying `sampleUrl`; the second fetch fails. -/
def fetchUrlThenFail : String → Option Json := fun u =>
  if u = sampleUrl then none
  else some (Json.obj [("properties", Json.obj [("forecast", Json.str sampleUrl)])])

/-- A grid-point response carrying `sampleUrl`; the second fetch returns a
body whose `periods` list is empty. -/
def fetchUrlThenEmpty : String → Option Json := fun u =>
  if u = sampleUrl then
    some (Json.obj [("properties", Json.obj [("periods", Json.arr [])])])
  else some (Json.obj [("properties", Json.obj [("forecast", Json.str sampleUrl)])])

/-- Witness for C2: the four error paths at concrete fetchers, at
coordinates `12.3, -45.6` (note the unrounded coordinates in the first
message). -/
theorem get_forecast_error_paths_witness :
    get_forecast fetchFail ⟨123, 1⟩ ⟨-456, 1⟩ =
      some "Failed to retrieve grid point data for coordinates: 12.3, -45.6. This location may not be supported by the NWS API (only US locations are supported)." ∧
    get_forecast fetchNoUrl ⟨123, 1⟩ ⟨-456, 1⟩ =
      some "Failed to get forecast URL from grid point data" ∧
    get_forecast fetchUrlThenFail ⟨123, 1⟩ ⟨-456, 1⟩ =
      some "Failed to retrieve forecast data" ∧
    get_forecast fetchUrlThenEmpty ⟨123, 1⟩ ⟨-456, 1⟩ =
      some "No forecast periods available" := by
  refine ⟨?_, ?_, ?_, ?_⟩
  · have h := (get_forecast_error_paths fetchFail ⟨123, 1⟩ ⟨-456, 1⟩).1 rfl
    rw [h]
    rfl
  · exact (get_forecast_error_paths fetchNoUrl ⟨123, 1⟩ ⟨-456, 1⟩).2.1
      [("properties", Json.obj [("gridId", Json.str "MTR")])]
      [("gridId", Json.str "MTR")] rfl (fun hc => List.noConfusion hc) rfl rfl
  · exact (get_forecast_error_paths fetchUrlThenFail ⟨123, 1⟩ ⟨-456, 1⟩).2.2.1
      [("properties", Json.obj [("forecast", Json.str sampleUrl)])]
      [("forecast", Json.str sampleUrl)] sampleUrl rfl
      (fun hc => List.noConfusion hc) rfl rfl (by decide) rfl
  · exact (get_forecast_error_paths fetchUrlThenEmpty ⟨123, 1⟩ ⟨-456, 1⟩).2.2.2
      [("properties", Json.obj [("forecast", Json.str sampleUrl)])]
      [("forecast", Json.str sampleUrl)] sampleUrl
      [("properties", Json.obj [("periods", Json.arr [])])]
      [("periods", Json.arr [])] rfl
      (fun hc => List.noConfusion hc) rfl rfl (by decide) rfl
      (fun hc => List.noConfusion hc) rfl rfl

/-- C3: when both fetches succeed and the periods list is non-empty,
`get_forecast` returns a header naming the input coordinates followed by
one formatted block per period (via `format_period`), joined by newlines
in upstream order. -/
theorem get_forecast_success (fetch : String → Option Json) (lat lon : Dec)
    (kvs pkvs : List (String × Json)) (u : String)
    (fkvs fpkvs : List (String × Json)) (ps : List Json)
    (h : fetch (pointsUrl lat lon) = some (Json.obj kvs)) (hne : kvs ≠ [])
    (hp : lookupD kvs "properties" (Json.obj []) = Json.obj pkvs)
    (hf : List.lookup "forecast" pkvs = some (Json.str u)) (hu : u ≠ "")
    (hfu : fetch u = some (Json.obj fkvs)) (hfne : fkvs ≠ [])
    (hfp : lookupD fkvs "properties" (Json.obj []) = Json.obj fpkvs)
    (hper : lookupD fpkvs "periods" (Json.arr []) = Json.arr ps)
    (hpne : ps ≠ []) (hok : ∀ p ∈ ps, PeriodOk p) :
    ∃ blocks, pyMap format_period ps = some blocks ∧
      blocks.length = ps.length ∧
      get_forecast fetch lat lon =
        some ("Forecast for " ++ lat.pyStr ++ ", " ++ lon.pyStr ++ ":\n\n" ++
          pyJoin "\n" blocks) := by
  obtain ⟨blocks, hb, hl⟩ := mapM_format_period ps hok
  have hfD : lookupD pkvs "forecast" Json.null = Json.str u := by
    simp [lookupD, hf]
  have huE := isEmpty_false_of_ne u hu
  refine ⟨blocks, hb, hl, ?_⟩
  cases kvs with
  | nil => exact absurd rfl hne
  | cons kv kvs =>
    cases fkvs with
    | nil => exact absurd rfl hfne
    | cons fkv fkvs =>
      cases ps with
      | nil => exact absurd rfl hpne
      | cons p ps =>
        simp [get_forecast, h, pyFalsy, Json.truthy, hp, hfD, huE,
          make_nws_request, hfu, hfp, hper, hb]

/-- The example forecast period from the spec. -/
def tonight : Json :=
  Json.obj [("name", Json.str "Tonight"), ("temperature", Json.num 40),
    ("temperatureUnit", Json.str "F"), ("windSpeed", Json.str "5 mph"),
    ("windDirection", Json.str "N"), ("shortForecast", Json.str "Clear")]

/-- A fetcher with a complete two-step forecast exchange whose single
period is `tonight`. -/
def fetchTonight : String → Option Json := fun u =>
  if u = sampleUrl then
    some (Json.obj [("properties", Json.obj [("periods", Json.arr [tonight])])])
  else some (Json.obj [("properties", Json.obj [("forecast", Json.str sampleUrl)])])

/-- Witness for C3: the full two-step success at coordinates `12.3, -45.6`
with the spec's `Tonight` period, including the exact five-line block. -/
theorem get_forecast_success_witness :
    format_period tonight =
      some "Tonight:\nTemperature: 40°F\nWind: 5 mph N\nClear\n---" ∧
    get_forecast fetchTonight ⟨123, 1⟩ ⟨-456, 1⟩ =
      some "Forecast for 12.3, -45.6:\n\nTonight:\nTemperature: 40°F\nWind: 5 mph N\nClear\n---" := by
  refine ⟨rfl, ?_⟩
  obtain ⟨blocks, hb, hlen, hout⟩ := get_forecast_success fetchTonight
    ⟨123, 1⟩ ⟨-456, 1⟩
    [("properties", Json.obj [("forecast", Json.str sampleUrl)])]
    [("forecast", Json.str sampleUrl)] sampleUrl
    [("properties", Json.obj [("periods", Json.arr [tonight])])]
    [("periods", Json.arr [tonight])] [tonight] rfl
    (fun hc => List.noConfusion hc) rfl rfl (by decide) rfl
    (fun hc => List.noConfusion hc) rfl rfl (fun hc => List.noConfusion hc)
    (by
      intro p hp
      rw [List.mem_singleton] at hp
      subst hp
      exact ⟨[("name", Json.str "Tonight"), ("temperature", Json.num 40),
        ("temperatureUnit", Json.str "F"), ("windSpeed", Json.str "5 mph"),
        ("windDirection", Json.str "N"), ("shortForecast", Json.str "Clear")], rfl⟩)
  have hev : pyMap format_period [tonight] =
      some ["Tonight:\nTemperature: 40°F\nWind: 5 mph N\nClear\n---"] := rfl
  rw [hev] at hb
  cases hb
  rw [hout]
  rfl

/-- C8: whenever every parsed body the fetcher can return is of the
expected shape with any subset of the expected sub-fields absent
(`Benign`), both tools return normally with a string — no exception
crosses the tool boundary. -/
theorem tools_no_exceptions (fetch : String → Option Json) (state : String)
    (lat lon : Dec) (h : ∀ url j, fetch url = some j → Benign j) :
    (get_alerts fetch state).isSome ∧ (get_forecast fetch lat lon).isSome := by
  constructor
  · cases hfa : fetch (alertsUrl state) with
    | none => simp [get_alerts, hfa, pyFalsy]
    | some j =>
      obtain ⟨kvs, pkvs, fs, ps, rfl, hfeat, hokF, hprops, hper, hokP⟩ :=
        h _ _ hfa
      cases kvs with
      | nil => simp [get_alerts, hfa, pyFalsy, Json.truthy]
      | cons kv kvs =>
        obtain ⟨blocks, hb, hlen⟩ := mapM_format_alert fs hokF
        cases fs with
        | nil => simp [get_alerts, hfa, pyFalsy, Json.truthy, hfeat]
        | cons f fs =>
          simp [get_alerts, hfa, pyFalsy, Json.truthy, hfeat, hb]
  · cases hpt : fetch (pointsUrl lat lon) with
    | none => simp [get_forecast, hpt, pyFalsy]
    | some j =>
      obtain ⟨kvs, pkvs, fs, ps, rfl, hfeat, hokF, hprops, hper, hokP⟩ :=
        h _ _ hpt
      cases kvs with
      | nil => simp [get_forecast, hpt, pyFalsy, Json.truthy]
      | cons kv kvs =>
        cases htr : (lookupD pkvs "forecast" Json.null).truthy with
        | false =>
          simp only [Json.truthy] at htr
          simp [get_forecast, hpt, pyFalsy, Json.truthy, hprops, htr]
        | true =>
          cases hurl : lookupD pkvs "forecast" Json.null with
          | str u =>
            rw [hurl] at htr
            simp only [Json.truthy, Bool.not_eq_true'] at htr
            cases hsf : fetch u with
            | none =>
              simp [get_forecast, hpt, pyFalsy, Json.truthy, hprops, hurl,
                htr, make_nws_request, hsf]
            | some j2 =>
              obtain ⟨fkvs, fpkvs, fs2, ps2, rfl, hfeat2, hokF2, hfprops,
                hfper, hokP2⟩ := h _ _ hsf
              cases fkvs with
              | nil =>
                simp [get_forecast, hpt, pyFalsy, Json.truthy, hprops, hurl,
                  htr, make_nws_request, hsf]
              | cons fkv fkvs =>
                obtain ⟨blocks, hb, hlen⟩ := mapM_format_period ps2 hokP2
                cases ps2 with
                | nil =>
                  simp [get_forecast, hpt, pyFalsy, Json.truthy, hprops,
                    hurl, htr, make_nws_request, hsf, hfprops, hfper]
                | cons p ps2 =>
                  simp [get_forecast, hpt, pyFalsy, Json.truthy, hprops,
                    hurl, htr, make_nws_request, hsf, hfprops, hfper, hb]
          | null =>
            rw [hurl] at htr
            simp [Json.truthy] at htr
          | bool b =>
            rw [hurl] at htr
            simp only [Json.truthy] at htr
            simp [get_forecast, hpt, pyFalsy, Json.truthy, hprops, hurl,
              htr, make_nws_request]
          | num n =>
            rw [hurl] at htr
            simp only [Json.truthy] at htr
            simp [get_forecast, hpt, pyFalsy, Json.truthy, hprops, hurl,
              htr, make_nws_request]
          | arr xs =>
            rw [hurl] at htr
            simp only [Json.truthy, Bool.not_eq_true'] at htr
            simp [get_forecast, hpt, pyFalsy, Json.truthy, hprops, hurl,
              htr, make_nws_request]
          | obj okvs =>
            rw [hurl] at htr
            simp only [Json.truthy, Bool.not_eq_true'] at htr
            simp [get_forecast, hpt, pyFalsy, Json.truthy, hprops, hurl,
              htr, make_nws_request]

/-- Witness for C8: the always-failing fetcher trivially satisfies the
shape hypothesis and both tools return a string. -/
theorem tools_no_exceptions_witness :
    (get_alerts fetchFail "ca").isSome ∧
    (get_forecast fetchFail ⟨123, 1⟩ ⟨-456, 1⟩).isSome :=
  tools_no_exceptions fetchFail "ca" ⟨123, 1⟩ ⟨-456, 1⟩
    (fun _ _ hj => nomatch hj)

/-- C9: the tools detect "fetch failed" by falsiness of the parsed body,
not only by the fetcher's failure signal: a successfully fetched empty
JSON object produces the same failure message as a transport failure (for
the alerts fetch, the grid fetch and the forecast fetch), and a present
but empty-string forecast URL is treated like an absent one. -/
theorem empty_body_is_failure (fetch : String → Option Json) (state : String)
    (lat lon : Dec) :
    (fetch (alertsUrl state) = some (Json.obj []) →
      get_alerts fetch state = some "Failed to retrieve alerts data") ∧
    (fetch (pointsUrl lat lon) = some (Json.obj []) →
      get_forecast fetch lat lon = some (gridFailMsg lat lon)) ∧
    (∀ kvs pkvs, fetch (pointsUrl lat lon) = some (Json.obj kvs) → kvs ≠ [] →
      lookupD kvs "properties" (Json.obj []) = Json.obj pkvs →
      List.lookup "forecast" pkvs = some (Json.str "") →
      get_forecast fetch lat lon =
        some "Failed to get forecast URL from grid point data") ∧
    (∀ kvs pkvs u, fetch (pointsUrl lat lon) = some (Json.obj kvs) →
      kvs ≠ [] →
      lookupD kvs "properties" (Json.obj []) = Json.obj pkvs →
      List.lookup "forecast" pkvs = some (Json.str u) → u ≠ "" →
      fetch u = some (Json.obj []) →
      get_forecast fetch lat lon = some "Failed to retrieve forecast data") := by
  refine ⟨fun h => by simp [get_alerts, h, pyFalsy, Json.truthy],
    fun h => by simp [get_forecast, h, pyFalsy, Json.truthy, gridFailMsg],
    ?_, ?_⟩
  · intro kvs pkvs h hne hp hf
    have hfD : lookupD pkvs "forecast" Json.null = Json.str "" := by
      simp [lookupD, hf]
    have hE : ("" : String).isEmpty = true := rfl
    cases kvs with
    | nil => exact absurd rfl hne
    | cons kv kvs =>
      simp [get_forecast, h, pyFalsy, Json.truthy, hp, hfD, hE]
  · intro kvs pkvs u h hne hp hf hu hfu
    have hfD : lookupD pkvs "forecast" Json.null = Json.str u := by
      simp [lookupD, hf]
    have huE := isEmpty_false_of_ne u hu
    cases kvs with
    | nil => exact absurd rfl hne
    | cons kv kvs =>
      simp [get_forecast, h, pyFalsy, Json.truthy, hp, hfD, huE,
        make_nws_request, hfu]

/-- A fetcher whose parsed body is always an empty JSON object. -/
def fetchEmptyObj : String → Option Json := fun _ => some (Json.obj [])

/-- A grid-point response whose forecast URL is present but empty. -/
def fetchEmptyUrl : String → Option Json :=
  fun _ => some (Json.obj [("properties", Json.obj [("forecast", Json.str "")])])

/-- A grid-point response carrying `sampleUrl`; the second fetch parses to
an empty JSON object. -/
def fetchUrlThenEmptyObj : String → Option Json := fun u =>
  if u = sampleUrl then some (Json.obj [])
  else some (Json.obj [("properties", Json.obj [("forecast", Json.str sampleUrl)])])

/-- Witness for C9: the four empty-body situations at concrete fetchers. -/
theorem empty_body_is_failure_witness :
    get_alerts fetchEmptyObj "ca" = some "Failed to retrieve alerts data" ∧
    get_forecast fetchEmptyObj ⟨123, 1⟩ ⟨-456, 1⟩ =
      some (gridFailMsg ⟨123, 1⟩ ⟨-456, 1⟩) ∧
    get_forecast fetchEmptyUrl ⟨123, 1⟩ ⟨-456, 1⟩ =
      some "Failed to get forecast URL from grid point data" ∧
    get_forecast fetchUrlThenEmptyObj ⟨123, 1⟩ ⟨-456, 1⟩ =
      some "Failed to retrieve forecast data" := by
  refine ⟨(empty_body_is_failure fetchEmptyObj "ca" ⟨123, 1⟩ ⟨-456, 1⟩).1 rfl,
    (empty_body_is_failure fetchEmptyObj "ca" ⟨123, 1⟩ ⟨-456, 1⟩).2.1 rfl,
    ?_, ?_⟩
  · exact (empty_body_is_failure fetchEmptyUrl "ca" ⟨123, 1⟩ ⟨-456, 1⟩).2.2.1
      [("properties", Json.obj [("forecast", Json.str "")])]
      [("forecast", Json.str "")] rfl (fun hc => List.noConfusion hc) rfl rfl
  · exact (empty_body_is_failure fetchUrlThenEmptyObj "ca" ⟨123, 1⟩ ⟨-456, 1⟩).2.2.2
      [("properties", Json.obj [("forecast", Json.str sampleUrl)])]
      [("forecast", Json.str sampleUrl)] sampleUrl rfl
      (fun hc => List.noConfusion hc) rfl rfl (by decide) rfl

/-- C10: the per-field placeholders of the forecast period formatter are
not uniform: missing `name` and `windSpeed` (and, by the second part,
missing `temperature`) render as `"Unknown"`, while a missing
`temperatureUnit` defaults to `"F"` (a present temperature with an absent
unit renders as `Temperature: {value}°F`) and a missing `windDirection`
defaults to the empty string, leaving a trailing space on the `Wind:`
line. -/
theorem format_period_defaults :
    (∀ kvs n, List.lookup "temperature" kvs = some (Json.num n) →
      List.lookup "temperatureUnit" kvs = none →
      List.lookup "windSpeed" kvs = none →
      List.lookup "windDirection" kvs = none →
      ∃ l1 l4, format_period (Json.obj kvs) =
        some (l1 ++ "\n" ++ "Temperature: " ++ toString n ++ "°" ++ "F" ++
          "\n" ++ "Wind: " ++ "Unknown" ++ " " ++ "" ++ "\n" ++ l4 ++ "\n" ++
          "---") ∧
        (List.lookup "name" kvs = none → l1 = "Unknown:") ∧
        (List.lookup "shortForecast" kvs = none →
          l4 = "No forecast available")) ∧
    (∀ kvs, List.lookup "temperature" kvs = none →
      List.lookup "temperatureUnit" kvs = none →
      ∃ l1 l3 l4, format_period (Json.obj kvs) =
        some (l1 ++ "\n" ++ "Temperature: " ++ "Unknown" ++ "°" ++ "F" ++
          "\n" ++ l3 ++ "\n" ++ l4 ++ "\n" ++ "---") ∧
        (List.lookup "name" kvs = none → l1 = "Unknown:") ∧
        (List.lookup "windSpeed" kvs = none →
          List.lookup "windDirection" kvs = none → l3 = "Wind: Unknown ") ∧
        (List.lookup "shortForecast" kvs = none →
          l4 = "No forecast available")) := by
  constructor
  · intro kvs n ht hu hw hd
    have hTd : lookupD kvs "temperature" (Json.str "Unknown") = Json.num n := by
      simp [lookupD, ht]
    have hUd : lookupD kvs "temperatureUnit" (Json.str "F") = Json.str "F" := by
      simp [lookupD, hu]
    have hWd : lookupD kvs "windSpeed" (Json.str "Unknown") =
        Json.str "Unknown" := by
      simp [lookupD, hw]
    have hDd : lookupD kvs "windDirection" (Json.str "") = Json.str "" := by
      simp [lookupD, hd]
    refine ⟨(lookupD kvs "name" (Json.str "Unknown")).pyStr ++ ":",
      (lookupD kvs "shortForecast" (Json.str "No forecast available")).pyStr,
      ?_, ?_, ?_⟩
    · simp only [format_period, hTd, hUd, hWd, hDd, Json.pyStr, Json.pyRepr]
      rw [pyJoin_five]
      simp only [String.append_assoc]
    · intro hn
      simp [lookupD, hn, Json.pyStr]
    · intro hsf
      simp [lookupD, hsf, Json.pyStr]
  · intro kvs ht hu
    have hTd : lookupD kvs "temperature" (Json.str "Unknown") =
        Json.str "Unknown" := by
      simp [lookupD, ht]
    have hUd : lookupD kvs "temperatureUnit" (Json.str "F") = Json.str "F" := by
      simp [lookupD, hu]
    refine ⟨(lookupD kvs "name" (Json.str "Unknown")).pyStr ++ ":",
      "Wind: " ++ (lookupD kvs "windSpeed" (Json.str "Unknown")).pyStr ++ " " ++
        (lookupD kvs "windDirection" (Json.str "")).pyStr,
      (lookupD kvs "shortForecast" (Json.str "No forecast available")).pyStr,
      ?_, ?_, ?_, ?_⟩
    · simp only [format_period, hTd, hUd, Json.pyStr]
      rw [pyJoin_five]
      simp only [String.append_assoc]
    · intro hn
      simp [lookupD, hn, Json.pyStr]
    · intro hw hd
      simp [lookupD, hw, hd, Json.pyStr]
    · intro hsf
      simp [lookupD, hsf, Json.pyStr]

/-- Witness for C10: a period with only a temperature, and the empty
period, rendered concretely. -/
theorem format_period_defaults_witness :
    format_period (Json.obj [("temperature", Json.num 40)]) =
      some "Unknown:\nTemperature: 40°F\nWind: Unknown \nNo forecast available\n---" ∧
    format_period (Json.obj []) =
      some "Unknown:\nTemperature: Unknown°F\nWind: Unknown \nNo forecast available\n---" := by
  constructor
  · obtain ⟨l1, l4, hout, hn, hsf⟩ := format_period_defaults.1
      [("temperature", Json.num 40)] 40 rfl rfl rfl rfl
    rw [hout, hn rfl, hsf rfl]
    rfl
  · obtain ⟨l1, l3, l4, hout, hn, hwd, hsf⟩ := format_period_defaults.2 [] rfl rfl
    rw [hout, hn rfl, hwd rfl rfl, hsf rfl]
    rfl

end WeatherServer
